import Mathlib

/-!
Shallow embedding of `libmachine/provision/atomichost.go` (the AtomicHost
provisioner of docker machine) and proofs about its observable behaviour.

Remote command execution is modelled by an environment `env : Nat → CmdResult`
giving the outcome of the k-th remote command a function issues; each function
additionally returns the ordered list of command strings it issued, so that
theorems can speak about which remote commands were (or were not) run.
-/

namespace AtomicHost

/-- Engine options (`engine.Options`), restricted to the fields read or written
by `atomichost.go`: storage driver, the four flag lists rendered into the unit
file, and the environment list. -/
structure EngineOptions where
  StorageDriver : String
  Labels : List String
  InsecureRegistry : List String
  RegistryMirror : List String
  ArbitraryFlags : List String
  Env : List String
deriving DecidableEq

/-- Auth options (`auth.Options`), restricted to the three remote certificate
paths substituted into the unit-file template. -/
structure AuthOptions where
  CaCertRemotePath : String
  ServerCertRemotePath : String
  ServerKeyRemotePath : String
deriving DecidableEq

/-- Modelled from the spec: `swarm.Options` (package `swarm` is not under
`src/`): cluster-join configuration whose environment list is overwritten with
the engine options' environment before the hand-off to the swarm configurer.
Besides `Env`, two representative cluster-join fields stand for the rest of the
configuration, enough to observe that only `Env` is overwritten. -/
structure SwarmOptions where
  IsSwarm : Bool
  Discovery : String
  Env : List String
deriving DecidableEq

/-- `DockerOptions`: rendered unit-file text plus its target remote path. -/
structure DockerOptions where
  EngineOptions : String
  EngineOptionsPath : String
deriving DecidableEq

/-- Modelled from the spec: `serviceaction.ServiceAction` (package
`serviceaction` is not under `src/`), the closed enumeration of service
lifecycle actions used by `Service`; the three members the claims mention. -/
inductive ServiceAction where
  | Start
  | Stop
  | Restart
deriving DecidableEq

/-- The `String()` rendering of a service action, as interpolated into
`sudo systemctl %s %s`. -/
def ServiceAction.render : ServiceAction → String
  | .Start => "start"
  | .Stop => "stop"
  | .Restart => "restart"

/-- State of an `AtomicHostProvisioner` relevant to the embedded methods:
the stored option structures plus the driver name, machine name and the
daemon options file path supplied by collaborators. -/
structure ProvisionerState where
  DriverName : String
  MachineName : String
  DaemonOptionsFile : String
  EngineOptions : EngineOptions
  AuthOptions : AuthOptions
  SwarmOptions : SwarmOptions
deriving DecidableEq

/-- Result of one remote command: captured output plus `err.Error()` of the
returned error (`none` when the command succeeded). -/
structure CmdResult where
  output : String
  err : Option String
deriving DecidableEq

/- ---------- string helpers (models of `strings.Contains` / `fmt %q`) ---------- -/

/-- `listStartsWith pat l` is true when `pat` is an initial segment of `l`. -/
def listStartsWith : List Char → List Char → Bool
  | [], _ => true
  | _ :: _, [] => false
  | p :: ps, c :: cs => p = c && listStartsWith ps cs

/-- Does `pat` occur as a contiguous sublist of `l`? Models Go
`strings.Contains` (in particular, the empty pattern is contained in
every string). -/
def containsSub (pat : List Char) : List Char → Bool
  | [] => listStartsWith pat []
  | c :: cs => listStartsWith pat (c :: cs) || containsSub pat cs

/-- Model of `strings.Contains s pat`. -/
def strContains (s pat : String) : Bool :=
  containsSub pat.data s.data

/-- Number of positions of `l` at which `pat` starts. -/
def countOcc (pat : List Char) : List Char → Nat
  | [] => 0
  | c :: cs => (if listStartsWith pat (c :: cs) then 1 else 0) + countOcc pat cs

/-- Number of positions of `s` at which the pattern `pat` occurs. -/
def countSubstr (s pat : String) : Nat :=
  countOcc pat.data s.data

/-- Model of Go `fmt.Sprintf "%q"` escaping for one character: quote,
backslash, newline, tab and carriage return are escaped, every other
character (the claims only ever evaluate it on plain printable ASCII)
is kept as is. Written with code points to keep the source plain. -/
def goQuoteChar (c : Char) : String :=
  if c = Char.ofNat 34 then String.mk [Char.ofNat 92, Char.ofNat 34]
  else if c = Char.ofNat 92 then String.mk [Char.ofNat 92, Char.ofNat 92]
  else if c = Char.ofNat 10 then String.mk [Char.ofNat 92, Char.ofNat 110]
  else if c = Char.ofNat 9 then String.mk [Char.ofNat 92, Char.ofNat 116]
  else if c = Char.ofNat 13 then String.mk [Char.ofNat 92, Char.ofNat 114]
  else String.singleton c

/-- Model of Go `fmt.Sprintf "%q" s`: the escaped string in double quotes. -/
def goQuote (s : String) : String :=
  String.mk [Char.ofNat 34] ++ String.join (s.data.map goQuoteChar) ++ String.mk [Char.ofNat 34]

/- ---------- the unit-file template ---------- -/

/-- `EngineConfigContext`: the data handed to the template. -/
structure EngineConfigContext where
  DockerPort : Int
  AuthOptions : AuthOptions
  EngineOptions : EngineOptions
deriving DecidableEq

/-- One command-line flag produced by the four `range` clauses of the
`ExecStart` line, tagged by which list it came from. -/
inductive DockerFlag where
  | label (v : String)
  | insecureRegistry (v : String)
  | registryMirror (v : String)
  | arbitrary (v : String)
deriving DecidableEq

/-- The text of one flag, exactly as the template writes it (without the
trailing separator space). -/
def DockerFlag.text : DockerFlag → String
  | .label v => "--label " ++ v
  | .insecureRegistry v => "--insecure-registry " ++ v
  | .registryMirror v => "--registry-mirror " ++ v
  | .arbitrary v => "--" ++ v

def DockerFlag.isLabel : DockerFlag → Bool
  | .label _ => true
  | _ => false

def DockerFlag.isInsecureRegistry : DockerFlag → Bool
  | .insecureRegistry _ => true
  | _ => false

def DockerFlag.isRegistryMirror : DockerFlag → Bool
  | .registryMirror _ => true
  | _ => false

def DockerFlag.isArbitrary : DockerFlag → Bool
  | .arbitrary _ => true
  | _ => false

/-- The flags of the `ExecStart` line, in template order: one `--label` per
label, then one `--insecure-registry` per entry, one `--registry-mirror` per
entry, one `--<flag>` per arbitrary flag. -/
def dockerFlags (e : EngineOptions) : List DockerFlag :=
  e.Labels.map DockerFlag.label
    ++ e.InsecureRegistry.map DockerFlag.insecureRegistry
    ++ e.RegistryMirror.map DockerFlag.registryMirror
    ++ e.ArbitraryFlags.map DockerFlag.arbitrary

/-- The flag section of the `ExecStart` line: each flag followed by one
space, concatenated (each `range` clause emits `--... {{.}} `). -/
def renderedFlags (e : EngineOptions) : String :=
  String.join ((dockerFlags e).map (fun f => f.text ++ " "))

/-- The unit-file text the fixed template produces on a given context,
transcribed clause by clause from the template literal `engineConfigTmpl`. -/
def renderEngineConfig (ctx : EngineConfigContext) : String :=
  "[Unit]\n" ++
  "Description=Docker Application Container Engine\n" ++
  "Documentation=http://docs.docker.com\n" ++
  "After=network.target\n" ++
  "\n" ++
  "[Service]\n" ++
  "ExecStart=/usr/bin/docker -d -H tcp://0.0.0.0:" ++ toString ctx.DockerPort ++
  " -H unix:///var/run/docker.sock --storage-driver " ++ ctx.EngineOptions.StorageDriver ++
  " --tlsverify --tlscacert " ++ ctx.AuthOptions.CaCertRemotePath ++
  " --tlscert " ++ ctx.AuthOptions.ServerCertRemotePath ++
  " --tlskey " ++ ctx.AuthOptions.ServerKeyRemotePath ++ " " ++
  renderedFlags ctx.EngineOptions ++ "\n" ++
  "MountFlags=slave\n" ++
  "LimitNOFILE=1048576\n" ++
  "LimitNPROC=1048576\n" ++
  "LimitCORE=infinity\n" ++
  "Environment=" ++ String.join (ctx.EngineOptions.Env.map (fun v => goQuote v ++ " ")) ++ "\n" ++
  "\n" ++
  "[Install]\n" ++
  "WantedBy=multi-user.target\n"

/- ---------- GenerateDockerOptions ---------- -/

/-- The derived label `provider=<driver name>` appended before rendering. -/
def driverNameLabel (s : ProvisionerState) : String :=
  "provider=" ++ s.DriverName

/-- Outcome of `t.Execute(&engineCfg, ...)`: the text written to the buffer
and the error value the call returned. -/
structure ExecOutcome where
  written : String
  execErr : Option String
deriving DecidableEq

/-- Error/result skeleton of `GenerateDockerOptions`: if template parsing
failed its error is returned; otherwise the function returns `ok` built from
whatever `Execute` wrote to the buffer — `Execute`'s own error value is
dropped on the floor, exactly as in the source, where the call's result is
not assigned to anything. -/
def generateDockerOptionsWith (parseErr : Option String) (ex : ExecOutcome)
    (path : String) : Except String DockerOptions :=
  match parseErr with
  | some e => .error e
  | none => .ok { EngineOptions := ex.written, EngineOptionsPath := path }

/-- `GenerateDockerOptions`: appends the `provider=<driver>` label to the
stored engine options, renders the fixed template over the updated state and
returns the rendered text with the daemon options file path. The fixed
template literal parses successfully, so the parse error is `none`; in the
pure rendering model `Execute` writes the full rendering and reports no
error. Returns the updated provisioner state (the receiver is mutated in Go)
together with the function's `(*DockerOptions, error)` result. -/
def GenerateDockerOptions (s : ProvisionerState) (dockerPort : Int) :
    ProvisionerState × Except String DockerOptions :=
  let s2 : ProvisionerState :=
    { s with EngineOptions :=
        { s.EngineOptions with Labels := s.EngineOptions.Labels ++ [driverNameLabel s] } }
  let rendered := renderEngineConfig
    { DockerPort := dockerPort, AuthOptions := s2.AuthOptions, EngineOptions := s2.EngineOptions }
  (s2, generateDockerOptionsWith none { written := rendered, execErr := none } s2.DaemonOptionsFile)

/-- `n` consecutive calls of `GenerateDockerOptions` on the same provisioner
(each call's state update feeding the next call). -/
def genIter (port : Int) : Nat → ProvisionerState → ProvisionerState
  | 0, s => s
  | n + 1, s => (GenerateDockerOptions (genIter port n s) port).1

/- ---------- Service ---------- -/

/-- The daemon reload command issued before a start or restart. -/
def daemonReloadCmd : String := "sudo systemctl daemon-reload"

/-- `Service`: for Start and Restart, first `sudo systemctl daemon-reload`
(returning its error at once when it fails), then
`sudo systemctl <action> <name>`; for other actions only the latter.
`env k` is the outcome of the k-th remote command issued by this call;
returns the issued command trace and the method's error result. -/
def Service (env : Nat → CmdResult) (name : String) (action : ServiceAction) :
    List String × Option String :=
  let reloadDaemon : Bool :=
    match action with
    | .Start => true
    | .Restart => true
    | _ => false
  if reloadDaemon then
    match (env 0).err with
    | some e => ([daemonReloadCmd], some e)
    | none =>
      let command := "sudo systemctl " ++ action.render ++ " " ++ name
      ([daemonReloadCmd, command], (env 1).err)
  else
    let command := "sudo systemctl " ++ action.render ++ " " ++ name
    ([command], (env 0).err)

/- ---------- upgrade ---------- -/

/-- `upgrade`: runs `sudo atomic host upgrade`. On failure, the sentinel
error text `exit status 77` means "no changes" and is turned into success;
any other failure is returned. On success, output containing
`No upgrade available.` means a no-op; otherwise `sudo reboot` is issued and
its outcome (`env 1`) is ignored. Returns the issued command trace and the
method's error result. -/
def upgrade (env : Nat → CmdResult) : List String × Option String :=
  let r := env 0
  match r.err with
  | some e =>
    if e = "exit status 77" then (["sudo atomic host upgrade"], none)
    else (["sudo atomic host upgrade"], some e)
  | none =>
    if strContains r.output "No upgrade available." then
      (["sudo atomic host upgrade"], none)
    else
      (["sudo atomic host upgrade", "sudo reboot"], none)

/-- Modelled from the spec: `pkgaction.PackageAction` (package `pkgaction` is
not under `src/`), the closed enumeration of package actions. -/
inductive PackageAction where
  | Install
  | Remove
  | Upgrade
deriving DecidableEq

/-- `Package`: only `("docker", Upgrade)` triggers the upgrade workflow;
every other combination is a no-op that succeeds with no remote command. -/
def Package (env : Nat → CmdResult) (name : String) (action : PackageAction) :
    List String × Option String :=
  if name = "docker" ∧ action = PackageAction.Upgrade then upgrade env
  else ([], none)

/- ---------- Provision ---------- -/

/-- One collaborator invocation made by `Provision`, recorded in order; the
swarm step records the `SwarmOptions` value handed to the swarm configurer. -/
inductive StepCall where
  | setHostname (name : String)
  | makeDockerOptionsDir
  | configureAuth
  | configureSwarm (opts : SwarmOptions)
deriving DecidableEq

/-- Outcomes of the collaborators `Provision` calls into: the error results
of `SetHostname`, `makeDockerOptionsDir`, `ConfigureAuth` and
`configureSwarm`, and the auth options computed by `setRemoteAuthOptions`. -/
structure Collaborators where
  setHostnameRes : Option String
  makeDirRes : Option String
  remoteAuthOptions : AuthOptions
  configureAuthRes : Option String
  configureSwarmRes : Option String
deriving DecidableEq

/-- Result of a `Provision` run: the final provisioner state, the ordered
collaborator invocations, and the returned error. -/
structure ProvisionResult where
  state : ProvisionerState
  steps : List StepCall
  err : Option String
deriving DecidableEq

/-- The part of `Provision` after storage-driver validation: hostname, options
directory, remote auth options, certificate configuration, swarm
configuration, aborting on the first collaborator failure. `swarmOpts` is the
local `swarmOptions` value (environment already overwritten) handed to the
swarm configurer. -/
def provisionSteps (c : Collaborators) (s : ProvisionerState) (swarmOpts : SwarmOptions) :
    ProvisionResult :=
  match c.setHostnameRes with
  | some e => ⟨s, [.setHostname s.MachineName], some e⟩
  | none =>
    match c.makeDirRes with
    | some e => ⟨s, [.setHostname s.MachineName, .makeDockerOptionsDir], some e⟩
    | none =>
      let s2 := { s with AuthOptions := c.remoteAuthOptions }
      match c.configureAuthRes with
      | some e =>
        ⟨s2, [.setHostname s.MachineName, .makeDockerOptionsDir, .configureAuth], some e⟩
      | none =>
        ⟨s2,
         [.setHostname s.MachineName, .makeDockerOptionsDir, .configureAuth,
          .configureSwarm swarmOpts],
         c.configureSwarmRes⟩

/-- `Provision`: stores the three option structures on the provisioner,
overwrites the local `swarmOptions`' environment with the engine environment,
validates the storage driver (empty defaults to `overlay`; any other
non-`overlay` value is an immediate error issued before any collaborator
call), then runs the collaborator sequence. -/
def Provision (c : Collaborators) (s : ProvisionerState) (swarmOptions : SwarmOptions)
    (authOptions : AuthOptions) (engineOptions : EngineOptions) : ProvisionResult :=
  let s1 : ProvisionerState :=
    { s with SwarmOptions := swarmOptions, AuthOptions := authOptions,
             EngineOptions := engineOptions }
  let swarmOpts : SwarmOptions := { swarmOptions with Env := engineOptions.Env }
  if s1.EngineOptions.StorageDriver = "" then
    provisionSteps c
      { s1 with EngineOptions := { s1.EngineOptions with StorageDriver := "overlay" } }
      swarmOpts
  else if s1.EngineOptions.StorageDriver ≠ "overlay" then
    ⟨s1, [], some ("Unsupported storage driver: " ++ s1.EngineOptions.StorageDriver)⟩
  else
    provisionSteps c s1 swarmOpts

/- ---------- concrete sample data ---------- -/

/-- A concrete provisioner state used by witnesses and counterexamples. -/
def sampleState : ProvisionerState :=
  { DriverName := "virtualbox"
    MachineName := "default"
    DaemonOptionsFile := "/etc/systemd/system/docker.service"
    EngineOptions :=
      { StorageDriver := "overlay", Labels := [], InsecureRegistry := [],
        RegistryMirror := [], ArbitraryFlags := [], Env := [] }
    AuthOptions :=
      { CaCertRemotePath := "/etc/docker/ca.pem",
        ServerCertRemotePath := "/etc/docker/server.pem",
        ServerKeyRemotePath := "/etc/docker/server-key.pem" }
    SwarmOptions := { IsSwarm := false, Discovery := "", Env := [] } }

/- ====================================================================
   Theorems
   ==================================================================== -/

/-- C1: when the remote `sudo atomic host upgrade` command fails, `upgrade`
issues no further command (in particular no reboot); the sentinel failure
`exit status 77` is turned into success and every other failure is returned
as the error. -/
theorem upgrade_failure_classification (env : Nat → CmdResult) (e : String)
    (h : (env 0).err = some e) :
    upgrade env =
      (["sudo atomic host upgrade"], if e = "exit status 77" then none else some e) := by
  by_cases h77 : e = "exit status 77" <;> simp [upgrade, h, h77]

/-- C1 witness: concrete runs for the sentinel status and for another
status. -/
theorem upgrade_failure_classification_witness :
    upgrade (fun _ => { output := "", err := some "exit status 77" }) =
      (["sudo atomic host upgrade"], none) ∧
    upgrade (fun _ => { output := "", err := some "exit status 1" }) =
      (["sudo atomic host upgrade"], some "exit status 1") := by
  constructor
  · have h := upgrade_failure_classification
      (fun _ => { output := "", err := some "exit status 77" }) "exit status 77" rfl
    simpa using h
  · have h := upgrade_failure_classification
      (fun _ => { output := "", err := some "exit status 1" }) "exit status 1" rfl
    simpa using h

/-- C2: when the remote upgrade command succeeds and its output contains the
marker `No upgrade available.`, `upgrade` returns success and issues no
reboot command (the trace is the upgrade command alone). -/
theorem upgrade_marker_no_reboot (env : Nat → CmdResult)
    (hok : (env 0).err = none)
    (hmark : strContains (env 0).output "No upgrade available." = true) :
    upgrade env = (["sudo atomic host upgrade"], none) := by
  simp [upgrade, hok, hmark]

/-- C2 witness: a concrete successful run whose output carries the marker. -/
theorem upgrade_marker_no_reboot_witness :
    upgrade (fun _ => { output := "No upgrade available.", err := none }) =
      (["sudo atomic host upgrade"], none) :=
  upgrade_marker_no_reboot
    (fun _ => { output := "No upgrade available.", err := none }) rfl (by decide)

/-- C3: when the remote upgrade command succeeds and its output does not
contain the marker, `upgrade` issues exactly one reboot command and returns
success; `env 1`, the reboot command's own outcome, is unconstrained, so the
result holds whatever the reboot returns. -/
theorem upgrade_success_reboots (env : Nat → CmdResult)
    (hok : (env 0).err = none)
    (hmark : strContains (env 0).output "No upgrade available." = false) :
    (upgrade env).1 = ["sudo atomic host upgrade", "sudo reboot"] ∧
    (upgrade env).1.count "sudo reboot" = 1 ∧
    (upgrade env).2 = none := by
  have hrun : upgrade env = (["sudo atomic host upgrade", "sudo reboot"], none) := by
    simp [upgrade, hok, hmark]
  rw [hrun]
  exact ⟨rfl, by decide, rfl⟩

/-- C3 witness: a concrete run where the upgrade succeeds and the reboot
command itself fails, yet the overall result is success with one reboot
issued. -/
theorem upgrade_success_reboots_witness :
    (upgrade (fun k => if k = 0 then { output := "1 upgrade applied", err := none }
                       else { output := "", err := some "connection closed" })).1 =
      ["sudo atomic host upgrade", "sudo reboot"] ∧
    (upgrade (fun k => if k = 0 then { output := "1 upgrade applied", err := none }
                       else { output := "", err := some "connection closed" })).1.count
        "sudo reboot" = 1 ∧
    (upgrade (fun k => if k = 0 then { output := "1 upgrade applied", err := none }
                       else { output := "", err := some "connection closed" })).2 = none :=
  upgrade_success_reboots
    (fun k => if k = 0 then { output := "1 upgrade applied", err := none }
              else { output := "", err := some "connection closed" })
    (by decide) (by decide)

/-- C4: `Service` with Start or Restart issues the daemon-reload command and
then (once the reload succeeded) the action command, in that order; with Stop
it issues only the action command, with no daemon-reload. -/
theorem service_command_order (env : Nat → CmdResult) (name : String) :
    ((env 0).err = none →
      (Service env name .Start).1 =
        [daemonReloadCmd, "sudo systemctl start " ++ name] ∧
      (Service env name .Restart).1 =
        [daemonReloadCmd, "sudo systemctl restart " ++ name]) ∧
    (Service env name .Stop).1 = ["sudo systemctl stop " ++ name] := by
  constructor
  · intro hok
    constructor <;> simp [Service, ServiceAction.render, hok]
  · simp [Service, ServiceAction.render]

/-- C4 witness: concrete traces for start, restart and stop of `docker`. -/
theorem service_command_order_witness :
    (Service (fun _ => { output := "", err := none }) "docker" .Start).1 =
      [daemonReloadCmd, "sudo systemctl start docker"] ∧
    (Service (fun _ => { output := "", err := none }) "docker" .Restart).1 =
      [daemonReloadCmd, "sudo systemctl restart docker"] ∧
    (Service (fun _ => { output := "", err := none }) "docker" .Stop).1 =
      ["sudo systemctl stop docker"] := by
  have h := service_command_order (fun _ => { output := "", err := none }) "docker"
  exact ⟨(h.1 rfl).1, (h.1 rfl).2, h.2⟩

/-- C5: for Start or Restart, a failing daemon-reload is returned at once
and the action command is never issued: the trace is the reload command
alone. -/
theorem service_reload_failfast (env : Nat → CmdResult) (name : String)
    (action : ServiceAction) (e : String)
    (hact : action = .Start ∨ action = .Restart)
    (herr : (env 0).err = some e) :
    Service env name action = ([daemonReloadCmd], some e) := by
  rcases hact with h | h <;> subst h <;> simp [Service, herr]

/-- C5 witness: a concrete failing daemon-reload before a start. -/
theorem service_reload_failfast_witness :
    Service (fun _ => { output := "", err := some "exit status 1" }) "docker" .Start =
      ([daemonReloadCmd], some "exit status 1") :=
  service_reload_failfast
    (fun _ => { output := "", err := some "exit status 1" }) "docker" .Start
    "exit status 1" (Or.inl rfl) rfl

/-- C6: `Provision` with an empty storage driver defaults it to `overlay` and
continues (the hostname step is the first collaborator invocation); with any
non-empty driver other than `overlay` it returns the validation error and
invokes no collaborator at all — in particular no remote command and no
hostname step. -/
theorem provision_storage_driver_validation (c : Collaborators)
    (s : ProvisionerState) (sw : SwarmOptions) (au : AuthOptions)
    (eng : EngineOptions) :
    (eng.StorageDriver = "" →
      (Provision c s sw au eng).state.EngineOptions.StorageDriver = "overlay" ∧
      (Provision c s sw au eng).steps.head? = some (.setHostname s.MachineName)) ∧
    (eng.StorageDriver ≠ "" → eng.StorageDriver ≠ "overlay" →
      (Provision c s sw au eng).steps = [] ∧
      (Provision c s sw au eng).err =
        some ("Unsupported storage driver: " ++ eng.StorageDriver)) := by
  constructor
  · intro hempty
    have hrun : Provision c s sw au eng =
        provisionSteps c
          { s with SwarmOptions := sw, AuthOptions := au,
                   EngineOptions := { eng with StorageDriver := "overlay" } }
          { sw with Env := eng.Env } := by
      simp [Provision, hempty]
    rw [hrun]
    unfold provisionSteps
    rcases hh : c.setHostnameRes with _ | e
    · rcases hm : c.makeDirRes with _ | e2
      · rcases ha : c.configureAuthRes with _ | e3 <;> simp [hh, hm, ha]
      · simp [hh, hm]
    · simp [hh]
  · intro hne hnov
    have hrun : Provision c s sw au eng =
        ⟨{ s with SwarmOptions := sw, AuthOptions := au, EngineOptions := eng },
         [], some ("Unsupported storage driver: " ++ eng.StorageDriver)⟩ := by
      simp [Provision, hne, hnov]
    rw [hrun]
    exact ⟨rfl, rfl⟩

/-- C6 witness: with every collaborator succeeding, an empty storage driver
is defaulted to `overlay` and the hostname step runs, while `btrfs` is
rejected with no collaborator invoked. -/
theorem provision_storage_driver_validation_witness :
    (Provision ⟨none, none, sampleState.AuthOptions, none, none⟩ sampleState
        sampleState.SwarmOptions sampleState.AuthOptions
        { sampleState.EngineOptions with StorageDriver := "" }).state.EngineOptions.StorageDriver
      = "overlay" ∧
    (Provision ⟨none, none, sampleState.AuthOptions, none, none⟩ sampleState
        sampleState.SwarmOptions sampleState.AuthOptions
        { sampleState.EngineOptions with StorageDriver := "" }).steps.head?
      = some (.setHostname "default") ∧
    (Provision ⟨none, none, sampleState.AuthOptions, none, none⟩ sampleState
        sampleState.SwarmOptions sampleState.AuthOptions
        { sampleState.EngineOptions with StorageDriver := "btrfs" }).steps = [] ∧
    (Provision ⟨none, none, sampleState.AuthOptions, none, none⟩ sampleState
        sampleState.SwarmOptions sampleState.AuthOptions
        { sampleState.EngineOptions with StorageDriver := "btrfs" }).err
      = some ("Unsupported storage driver: " ++ "btrfs") := by
  have h1 := (provision_storage_driver_validation
    ⟨none, none, sampleState.AuthOptions, none, none⟩ sampleState
    sampleState.SwarmOptions sampleState.AuthOptions
    { sampleState.EngineOptions with StorageDriver := "" }).1 rfl
  have h2 := (provision_storage_driver_validation
    ⟨none, none, sampleState.AuthOptions, none, none⟩ sampleState
    sampleState.SwarmOptions sampleState.AuthOptions
    { sampleState.EngineOptions with StorageDriver := "btrfs" }).2
    (by decide) (by decide)
  exact ⟨h1.1, h1.2, h2.1, h2.2⟩

/-- C8: when `Provision` passes validation and every collaborator before the
swarm step succeeds, the `SwarmOptions` value handed to the swarm configurer
is the input value with its environment overwritten by
`EngineOptions.Env`, while the provisioner's stored `SwarmOptions` keeps the
original environment: the overwrite is a one-way copy made before the
hand-off. -/
theorem provision_swarm_env_copy (c : Collaborators) (s : ProvisionerState)
    (sw : SwarmOptions) (au : AuthOptions) (eng : EngineOptions)
    (hd : eng.StorageDriver = "" ∨ eng.StorageDriver = "overlay")
    (h1 : c.setHostnameRes = none) (h2 : c.makeDirRes = none)
    (h3 : c.configureAuthRes = none) :
    (Provision c s sw au eng).steps =
      [.setHostname s.MachineName, .makeDockerOptionsDir, .configureAuth,
       .configureSwarm { sw with Env := eng.Env }] ∧
    ({ sw with Env := eng.Env } : SwarmOptions).Env = eng.Env ∧
    (Provision c s sw au eng).state.SwarmOptions = sw := by
  have hsteps : ∀ s0 : ProvisionerState,
      provisionSteps c s0 { sw with Env := eng.Env } =
        ⟨{ s0 with AuthOptions := c.remoteAuthOptions },
         [.setHostname s0.MachineName, .makeDockerOptionsDir, .configureAuth,
          .configureSwarm { sw with Env := eng.Env }],
         c.configureSwarmRes⟩ := by
    intro s0
    simp [provisionSteps, h1, h2, h3]
  rcases hd with hd | hd
  · have hrun : Provision c s sw au eng =
        provisionSteps c
          { s with SwarmOptions := sw, AuthOptions := au,
                   EngineOptions := { eng with StorageDriver := "overlay" } }
          { sw with Env := eng.Env } := by
      simp [Provision, hd]
    rw [hrun, hsteps]
    exact ⟨rfl, rfl, rfl⟩
  · have hrun : Provision c s sw au eng =
        provisionSteps c
          { s with SwarmOptions := sw, AuthOptions := au, EngineOptions := eng }
          { sw with Env := eng.Env } := by
      simp [Provision, hd]
    rw [hrun, hsteps]
    exact ⟨rfl, rfl, rfl⟩

/-- C8 witness: a concrete run in which the engine environment differs from
the swarm environment; the handed value carries the engine environment, the
stored one keeps the original. -/
theorem provision_swarm_env_copy_witness :
    (Provision ⟨none, none, sampleState.AuthOptions, none, none⟩ sampleState
        { IsSwarm := true, Discovery := "token://abc", Env := ["SWARM=1"] }
        sampleState.AuthOptions
        { sampleState.EngineOptions with Env := ["HTTP_PROXY=http://proxy:3128"] }).steps =
      [.setHostname "default", .makeDockerOptionsDir, .configureAuth,
       .configureSwarm
         { IsSwarm := true, Discovery := "token://abc",
           Env := ["HTTP_PROXY=http://proxy:3128"] }] ∧
    (Provision ⟨none, none, sampleState.AuthOptions, none, none⟩ sampleState
        { IsSwarm := true, Discovery := "token://abc", Env := ["SWARM=1"] }
        sampleState.AuthOptions
        { sampleState.EngineOptions with Env := ["HTTP_PROXY=http://proxy:3128"] }).state.SwarmOptions =
      { IsSwarm := true, Discovery := "token://abc", Env := ["SWARM=1"] } := by
  have h := provision_swarm_env_copy
    ⟨none, none, sampleState.AuthOptions, none, none⟩ sampleState
    { IsSwarm := true, Discovery := "token://abc", Env := ["SWARM=1"] }
    sampleState.AuthOptions
    { sampleState.EngineOptions with Env := ["HTTP_PROXY=http://proxy:3128"] }
    (Or.inr rfl) rfl rfl rfl
  exact ⟨h.1, h.2.2⟩

/- ---------- helper lemmas about dockerFlags and genIter ---------- -/

theorem countP_dockerFlags_label (e : EngineOptions) :
    (dockerFlags e).countP DockerFlag.isLabel = e.Labels.length := by
  simp [dockerFlags, List.countP_append, List.countP_map, Function.comp_def,
    DockerFlag.isLabel, List.countP_true, List.countP_false]

theorem countP_dockerFlags_insecureRegistry (e : EngineOptions) :
    (dockerFlags e).countP DockerFlag.isInsecureRegistry = e.InsecureRegistry.length := by
  simp [dockerFlags, List.countP_append, List.countP_map, Function.comp_def,
    DockerFlag.isInsecureRegistry, List.countP_true, List.countP_false]

theorem countP_dockerFlags_registryMirror (e : EngineOptions) :
    (dockerFlags e).countP DockerFlag.isRegistryMirror = e.RegistryMirror.length := by
  simp [dockerFlags, List.countP_append, List.countP_map, Function.comp_def,
    DockerFlag.isRegistryMirror, List.countP_true, List.countP_false]

theorem countP_dockerFlags_arbitrary (e : EngineOptions) :
    (dockerFlags e).countP DockerFlag.isArbitrary = e.ArbitraryFlags.length := by
  simp [dockerFlags, List.countP_append, List.countP_map, Function.comp_def,
    DockerFlag.isArbitrary, List.countP_true, List.countP_false]

theorem count_label_in_dockerFlags (e : EngineOptions) (v : String) :
    (dockerFlags e).count (DockerFlag.label v) = e.Labels.count v := by
  have hinj : Function.Injective DockerFlag.label := by
    intro a b hab
    simpa using hab
  have h1 : (e.Labels.map DockerFlag.label).count (DockerFlag.label v) =
      e.Labels.count v := List.count_map_of_injective _ _ hinj _
  have h2 : (e.InsecureRegistry.map DockerFlag.insecureRegistry).count
      (DockerFlag.label v) = 0 := by
    rw [List.count_eq_zero]
    simp
  have h3 : (e.RegistryMirror.map DockerFlag.registryMirror).count
      (DockerFlag.label v) = 0 := by
    rw [List.count_eq_zero]
    simp
  have h4 : (e.ArbitraryFlags.map DockerFlag.arbitrary).count
      (DockerFlag.label v) = 0 := by
    rw [List.count_eq_zero]
    simp
  simp [dockerFlags, List.count_append, h1, h2, h3, h4]

theorem genIter_preserve (port : Int) (s : ProvisionerState) (n : Nat) :
    (genIter port n s).DriverName = s.DriverName ∧
    (genIter port n s).AuthOptions = s.AuthOptions ∧
    (genIter port n s).DaemonOptionsFile = s.DaemonOptionsFile := by
  induction n with
  | zero => exact ⟨rfl, rfl, rfl⟩
  | succ m ih =>
    simpa [genIter, GenerateDockerOptions] using ih

theorem genIter_labels (port : Int) (s : ProvisionerState) (n : Nat) :
    (genIter port n s).EngineOptions.Labels =
      s.EngineOptions.Labels ++ List.replicate n (driverNameLabel s) := by
  induction n with
  | zero => simp [genIter]
  | succ m ih =>
    have hdrv := (genIter_preserve port s m).1
    simp [genIter, GenerateDockerOptions, ih, driverNameLabel, hdrv,
      List.replicate_succ']

/- ---------- C7 ---------- -/

/-- The unit-file text the sample call renders (the error branch is never
taken on this input). -/
def cexRendered : String :=
  match (GenerateDockerOptions sampleState 2376).2 with
  | .ok d => d.EngineOptions
  | .error e => e

set_option maxRecDepth 8192 in
/-- C7 counterexample: a provisioner whose engine options carry zero labels,
yet the rendered unit-file text contains one `--label ` token — the derived
`provider=<driver>` label is appended before rendering, so the count is not
the input count N. -/
theorem generateDockerOptions_label_count_cex :
    sampleState.EngineOptions.Labels.length = 0 ∧
    countSubstr cexRendered "--label " = 1 := ⟨rfl, by decide⟩

/-- C7 (amended): the flag tokens rendered by `GenerateDockerOptions` are,
in order: one `--label` per input label in input order followed by one
`--label` for the derived provider label (N + 1 in total), then one
`--insecure-registry` per entry (M), one `--registry-mirror` per entry (K)
and one arbitrary-flag token per entry (J), each list in input order; the
returned text is the rendering of exactly these options. -/
theorem generateDockerOptions_flag_tokens (s : ProvisionerState) (port : Int) :
    dockerFlags ((GenerateDockerOptions s port).1.EngineOptions) =
      (s.EngineOptions.Labels ++ [driverNameLabel s]).map DockerFlag.label
        ++ s.EngineOptions.InsecureRegistry.map DockerFlag.insecureRegistry
        ++ s.EngineOptions.RegistryMirror.map DockerFlag.registryMirror
        ++ s.EngineOptions.ArbitraryFlags.map DockerFlag.arbitrary ∧
    (dockerFlags ((GenerateDockerOptions s port).1.EngineOptions)).countP
        DockerFlag.isLabel = s.EngineOptions.Labels.length + 1 ∧
    (dockerFlags ((GenerateDockerOptions s port).1.EngineOptions)).countP
        DockerFlag.isInsecureRegistry = s.EngineOptions.InsecureRegistry.length ∧
    (dockerFlags ((GenerateDockerOptions s port).1.EngineOptions)).countP
        DockerFlag.isRegistryMirror = s.EngineOptions.RegistryMirror.length ∧
    (dockerFlags ((GenerateDockerOptions s port).1.EngineOptions)).countP
        DockerFlag.isArbitrary = s.EngineOptions.ArbitraryFlags.length ∧
    (GenerateDockerOptions s port).2 =
      .ok { EngineOptions := renderEngineConfig
              { DockerPort := port, AuthOptions := s.AuthOptions,
                EngineOptions := (GenerateDockerOptions s port).1.EngineOptions },
            EngineOptionsPath := s.DaemonOptionsFile } := by
  refine ⟨?_, ?_, ?_, ?_, ?_, ?_⟩
  · simp [GenerateDockerOptions, dockerFlags]
  · rw [countP_dockerFlags_label]
    simp [GenerateDockerOptions]
  · rw [countP_dockerFlags_insecureRegistry]
    simp [GenerateDockerOptions]
  · rw [countP_dockerFlags_registryMirror]
    simp [GenerateDockerOptions]
  · rw [countP_dockerFlags_arbitrary]
    simp [GenerateDockerOptions]
  · simp [GenerateDockerOptions, generateDockerOptionsWith]

/- ---------- C9 ---------- -/

/-- C9: `GenerateDockerOptions` can fail only with the template parse error;
when parsing succeeds the function returns `ok` carrying whatever text the
execute step wrote, whatever error the execute step reported — that error is
discarded. -/
theorem generateDockerOptions_error_only_from_parse (p : Option String)
    (ex : ExecOutcome) (path : String) :
    (p = none → generateDockerOptionsWith p ex path =
      .ok { EngineOptions := ex.written, EngineOptionsPath := path }) ∧
    (∀ e, generateDockerOptionsWith p ex path = Except.error e → p = some e) := by
  constructor
  · intro hp
    simp [generateDockerOptionsWith, hp]
  · intro e he
    cases hp : p with
    | none =>
      rw [hp] at he
      simp [generateDockerOptionsWith] at he
    | some q =>
      rw [hp] at he
      simp [generateDockerOptionsWith] at he
      rw [he]

/-- C9 witness: a run whose execute step fails after writing a truncated
buffer still returns `ok` with the truncated text. -/
theorem generateDockerOptions_error_only_from_parse_witness :
    generateDockerOptionsWith none
        { written := "[Unit]\nDescription=Docker Application Container Engine\n",
          execErr := some "template: engineConfig: executing failed" }
        "/etc/systemd/system/docker.service" =
      .ok { EngineOptions := "[Unit]\nDescription=Docker Application Container Engine\n",
            EngineOptionsPath := "/etc/systemd/system/docker.service" } :=
  (generateDockerOptions_error_only_from_parse none
    { written := "[Unit]\nDescription=Docker Application Container Engine\n",
      execErr := some "template: engineConfig: executing failed" }
    "/etc/systemd/system/docker.service").1 rfl

/- ---------- C10 ---------- -/

/-- C10: each call of `GenerateDockerOptions` appends one
`provider=<driver>` entry to the stored label list, so the operation is not
idempotent on provisioner state: starting from a state with no provider
entry, after n consecutive calls the label list counts n provider entries,
and the n-th call's output is the rendering of engine options whose flag
list carries n `--label provider=<driver>` tokens. -/
theorem generateDockerOptions_label_append_iterated (s : ProvisionerState)
    (port : Int) (n : Nat)
    (h0 : s.EngineOptions.Labels.count (driverNameLabel s) = 0) :
    (genIter port n s).EngineOptions.Labels.count (driverNameLabel s) = n ∧
    (∀ m, n = m + 1 →
      (GenerateDockerOptions (genIter port m s) port).2 =
        .ok { EngineOptions := renderEngineConfig
                { DockerPort := port, AuthOptions := s.AuthOptions,
                  EngineOptions := (genIter port n s).EngineOptions },
              EngineOptionsPath := s.DaemonOptionsFile } ∧
      (dockerFlags ((genIter port n s).EngineOptions)).count
          (DockerFlag.label (driverNameLabel s)) = n) := by
  constructor
  · rw [genIter_labels]
    simp [List.count_append, List.count_replicate_self, h0]
  · intro m hm
    subst hm
    constructor
    · have hau := (genIter_preserve port s m).2.1
      have hfile := (genIter_preserve port s m).2.2
      show (GenerateDockerOptions (genIter port m s) port).2 = _
      simp only [GenerateDockerOptions, generateDockerOptionsWith, genIter]
      rw [hau, hfile]
    · rw [count_label_in_dockerFlags, genIter_labels]
      simp [List.count_append, List.count_replicate_self, h0]

/-- C10 witness: two consecutive calls on the sample provisioner leave two
provider entries in the label list, and the second call's output renders two
`--label provider=virtualbox` flags. -/
theorem generateDockerOptions_label_append_iterated_witness :
    (genIter 2376 2 sampleState).EngineOptions.Labels.count
        (driverNameLabel sampleState) = 2 ∧
    (GenerateDockerOptions (genIter 2376 1 sampleState) 2376).2 =
      .ok { EngineOptions := renderEngineConfig
              { DockerPort := 2376, AuthOptions := sampleState.AuthOptions,
                EngineOptions := (genIter 2376 2 sampleState).EngineOptions },
            EngineOptionsPath := sampleState.DaemonOptionsFile } ∧
    (dockerFlags ((genIter 2376 2 sampleState).EngineOptions)).count
        (DockerFlag.label (driverNameLabel sampleState)) = 2 := by
  have h := generateDockerOptions_label_append_iterated sampleState 2376 2 (by decide)
  have h2 := h.2 1 rfl
  exact ⟨h.1, h2.1, h2.2⟩

end AtomicHost
